import Mathlib

/-!
Shallow embedding of the architectural boundary checker in
scripts/check_boundaries.py, together with theorems settling the
specification's claims about it.

The checker walks a Python AST per file; here a file's parsed body is a
list of statements (Stmt), a file's read/parse outcome is a FileOutcome,
and the command-line entry point is modelled as a pure function from a
tree model (does the src directory exist, and the candidate files in the
order the filesystem enumerates them) to an exit code and output lines.
-/

namespace CheckBoundaries

/-- A file path, as its sequence of components (Python Path.parts). -/
abbrev PyPath := List String

/-- Python str.startswith: p is a character-sequence prefix of s. -/
def startswith (s p : String) : Bool := p.data.isPrefixOf s.data

/-- One statement of a parsed Python file, as the checker's NodeVisitor
sees it: a plain import, a from-import (module is None for purely
relative from-imports), or any other statement, whose nested body the
visitor traverses generically. -/
inductive Stmt where
  | importStmt (names : List String) (lineno : Int)
  | importFrom (module : Option String) (lineno : Int)
  | compound (lineno : Int) (body : List Stmt)
deriving Repr

/-- BoundaryViolation from check_boundaries.py: file path, line, message. -/
structure BoundaryViolation where
  file_path : PyPath
  line : Int
  message : String
deriving Repr, DecidableEq

/-- The frameworks list of BoundaryChecker.is_framework_import. -/
def frameworks : List String := ["fastapi", "sqlalchemy", "requests", "pydantic"]

/-- The infrastructure list of BoundaryChecker.is_infrastructure_import. -/
def infrastructure : List String := ["sqlalchemy", "requests", "redis", "boto3"]

/-- BoundaryChecker.is_domain_layer: the path has a "domain" component. -/
def is_domain_layer (file_path : PyPath) : Bool := file_path.contains "domain"

/-- BoundaryChecker.is_application_layer: the path has an "application" component. -/
def is_application_layer (file_path : PyPath) : Bool := file_path.contains "application"

/-- BoundaryChecker.is_framework_import: any(module.startswith(fw) for fw in frameworks). -/
def is_framework_import (module : String) : Bool :=
  frameworks.any fun fw => startswith module fw

/-- BoundaryChecker.is_infrastructure_import: any(module.startswith(i) for i in infrastructure). -/
def is_infrastructure_import (module : String) : Bool :=
  infrastructure.any fun infra => startswith module infra

/-- The visitor pass of BoundaryChecker over a statement sequence.
Only visit_ImportFrom is defined in the source, so plain imports add
nothing; a from-import with module None returns early; otherwise the
domain-layer check and the application-layer check run independently,
each appending its violation; generic_visit descends into nested
bodies and the traversal continues with the remaining statements. -/
def visitStmts (fp : PyPath) : List Stmt → List BoundaryViolation
  | [] => []
  | Stmt.importStmt _ _ :: rest => visitStmts fp rest
  | Stmt.importFrom none _ :: rest => visitStmts fp rest
  | Stmt.importFrom (some m) ln :: rest =>
      (if is_domain_layer fp && is_framework_import m then
        [⟨fp, ln, "Domain layer importing framework: " ++ m⟩] else []) ++
      (if is_application_layer fp && is_infrastructure_import m then
        [⟨fp, ln, "Application layer importing infrastructure: " ++ m⟩] else []) ++
      visitStmts fp rest
  | Stmt.compound _ body :: rest => visitStmts fp body ++ visitStmts fp rest

/-- How reading and parsing one candidate file went: a parsed body, a
SyntaxError from ast.parse carrying the parser's optional line and
message, or any other per-file exception (permission, deletion, ...). -/
inductive FileOutcome where
  | ok (tree : List Stmt)
  | syntaxError (lineno : Option Int) (msg : String)
  | readError (msg : String)

/-- check_file from check_boundaries.py: on a parsed file run the
visitor; on SyntaxError return the single diagnostic with line
(e.lineno or 0); on any other exception return the single diagnostic
with line 0. -/
def check_file (fp : PyPath) (oc : FileOutcome) : List BoundaryViolation :=
  match oc with
  | FileOutcome.ok tree => visitStmts fp tree
  | FileOutcome.syntaxError ln msg => [⟨fp, ln.getD 0, "Syntax error: " ++ msg⟩]
  | FileOutcome.readError msg => [⟨fp, 0, "Error checking file: " ++ msg⟩]

/-- Rendering of a Path as a string: components joined by "/". -/
def pathStr (p : PyPath) : String := String.intercalate "/" p

/-- BoundaryViolation.__str__: "path:line - message". -/
def violationStr (v : BoundaryViolation) : String :=
  pathStr v.file_path ++ ":" ++ toString v.line ++ " - " ++ v.message

/-- The accumulation loop of main: violations of every candidate file,
concatenated in enumeration order. -/
def all_violations (files : List (PyPath × FileOutcome)) : List BoundaryViolation :=
  files.flatMap fun p => check_file p.1 p.2

/-- The state of the world main runs against: the project root path,
whether root/backend/src exists, and the candidate .py files under it
with their outcomes, in the order rglob enumerates them (the source
applies no sorting to this list). -/
structure TreeModel where
  root : PyPath
  srcExists : Bool
  files : List (PyPath × FileOutcome)

/-- What a run of main produces: the process exit status and the lines
printed to stdout. -/
structure RunOutput where
  exit : Nat
  out : List String
deriving Repr, DecidableEq

/-- main from check_boundaries.py: missing src directory exits 1; no
candidate files prints the informational line and returns (exit 0);
otherwise every file is checked, a nonempty violation list prints the
header plus one line per violation and exits 1, and an empty one prints
the success line and returns (exit 0). -/
def runMain (m : TreeModel) : RunOutput :=
  if m.srcExists = false then
    { exit := 1,
      out := ["❌ No src directory found at " ++ pathStr (m.root ++ ["backend", "src"])] }
  else if m.files.isEmpty then
    { exit := 0, out := ["✅ No Python files found to check"] }
  else if (all_violations m.files).isEmpty = false then
    { exit := 1,
      out := "❌ Boundary violations detected:" ::
        (all_violations m.files).map (fun v => "  " ++ violationStr v) }
  else
    { exit := 0, out := ["✅ No boundary violations found"] }

/-- Definition following the spec's words, for comparison with the
source's matching: a dependency target matches a forbidden p when it
equals p or starts with p followed immediately by the namespace
separator. -/
def spec_sep_aware_match (p t : String) : Bool :=
  t == p || startswith t (p ++ ".")

/-- Definition following the spec's words: a target is flagged as a
framework import when some forbidden framework p matches it
separator-awarely. -/
def spec_framework_flag (t : String) : Bool :=
  frameworks.any fun p => spec_sep_aware_match p t

/-- Parser line-number sanity for a statement sequence: ast line
numbers are 1-based, recursively through nested bodies. -/
def stmtsLinesOk : List Stmt → Bool
  | [] => true
  | Stmt.importStmt _ ln :: rest => decide (1 ≤ ln) && stmtsLinesOk rest
  | Stmt.importFrom _ ln :: rest => decide (1 ≤ ln) && stmtsLinesOk rest
  | Stmt.compound ln body :: rest =>
      decide (1 ≤ ln) && stmtsLinesOk body && stmtsLinesOk rest

/-- Parser line-number sanity for a file outcome: parsed statements
have 1-based lines, and a SyntaxError's reported line, when present, is
1-based. -/
def outcomeLinesOk : FileOutcome → Bool
  | FileOutcome.ok tree => stmtsLinesOk tree
  | FileOutcome.syntaxError ln _ =>
      match ln with
      | none => true
      | some n => decide (1 ≤ n)
  | FileOutcome.readError _ => true

/-- Any violation the visitor emits carries the visited file's path,
and when every statement line is 1-based, a positive line number. -/
theorem visitStmts_mem (fp : PyPath) :
    ∀ tree : List Stmt, ∀ v ∈ visitStmts fp tree,
      v.file_path = fp ∧ (stmtsLinesOk tree = true → 1 ≤ v.line) := by
  intro tree
  induction tree using visitStmts.induct fp with
  | case1 => simp [visitStmts]
  | case2 names ln rest ih =>
      intro v hv
      rw [visitStmts] at hv
      rcases ih v hv with ⟨h1, h2⟩
      refine ⟨h1, fun hok => ?_⟩
      rw [stmtsLinesOk] at hok
      simp only [Bool.and_eq_true] at hok
      exact h2 hok.2
  | case3 ln rest ih =>
      intro v hv
      rw [visitStmts] at hv
      rcases ih v hv with ⟨h1, h2⟩
      refine ⟨h1, fun hok => ?_⟩
      rw [stmtsLinesOk] at hok
      simp only [Bool.and_eq_true] at hok
      exact h2 hok.2
  | case4 m ln rest ih =>
      intro v hv
      rw [visitStmts] at hv
      simp only [List.mem_append] at hv
      have hln : stmtsLinesOk (Stmt.importFrom (some m) ln :: rest) = true →
          (1 ≤ ln ∧ stmtsLinesOk rest = true) := by
        intro hok
        rw [stmtsLinesOk] at hok
        simp only [Bool.and_eq_true, decide_eq_true_eq] at hok
        exact hok
      rcases hv with (hv | hv) | hv
      · refine ⟨?_, fun hok => ?_⟩
        · by_cases hc : is_domain_layer fp && is_framework_import m
          · simp [hc] at hv; simp [hv]
          · simp [hc] at hv
        · by_cases hc : is_domain_layer fp && is_framework_import m
          · simp [hc] at hv; rw [hv]; exact (hln hok).1
          · simp [hc] at hv
      · refine ⟨?_, fun hok => ?_⟩
        · by_cases hc : is_application_layer fp && is_infrastructure_import m
          · simp [hc] at hv; simp [hv]
          · simp [hc] at hv
        · by_cases hc : is_application_layer fp && is_infrastructure_import m
          · simp [hc] at hv; rw [hv]; exact (hln hok).1
          · simp [hc] at hv
      · rcases ih v hv with ⟨h1, h2⟩
        exact ⟨h1, fun hok => h2 ((hln hok).2)⟩
  | case5 ln body rest ih1 ih2 =>
      intro v hv
      rw [visitStmts] at hv
      have hln : stmtsLinesOk (Stmt.compound ln body :: rest) = true →
          (stmtsLinesOk body = true ∧ stmtsLinesOk rest = true) := by
        intro hok
        rw [stmtsLinesOk] at hok
        simp only [Bool.and_eq_true] at hok
        exact ⟨hok.1.2, hok.2⟩
      rcases List.mem_append.mp hv with hv | hv
      · rcases ih1 v hv with ⟨h1, h2⟩
        exact ⟨h1, fun hok => h2 ((hln hok).1)⟩
      · rcases ih2 v hv with ⟨h1, h2⟩
        exact ⟨h1, fun hok => h2 ((hln hok).2)⟩

/-- Any violation check_file returns carries the checked file's path,
and when the outcome's parser lines are sane, a non-negative line. -/
theorem check_file_mem (fp : PyPath) (oc : FileOutcome) :
    ∀ v ∈ check_file fp oc,
      v.file_path = fp ∧ (outcomeLinesOk oc = true → 0 ≤ v.line) := by
  intro v hv
  cases oc with
  | ok tree =>
      rcases visitStmts_mem fp tree v hv with ⟨h1, h2⟩
      refine ⟨h1, fun hok => ?_⟩
      have := h2 (by simpa [outcomeLinesOk] using hok)
      omega
  | syntaxError ln msg =>
      simp only [check_file, List.mem_singleton] at hv
      subst hv
      refine ⟨rfl, fun hok => ?_⟩
      cases ln with
      | none => simp
      | some n =>
          simp only [outcomeLinesOk, decide_eq_true_eq] at hok
          simpa using le_trans (by norm_num) hok
  | readError msg =>
      simp only [check_file, List.mem_singleton] at hv
      subst hv
      exact ⟨rfl, fun _ => le_refl 0⟩

/-- C1, counterexample: the source's matching is a plain string-prefix
check, not separator-aware. The target "requestsx" merely string-starts
with the forbidden framework "requests" (it neither equals it nor
continues with the namespace separator, as spec_framework_flag
verifies), yet is_framework_import flags it and a domain-layer file
importing it gets a violation — so the claim that such a target is
never flagged is false. -/
theorem C1_counterexample :
    is_framework_import "requestsx" = true ∧
    spec_framework_flag "requestsx" = false ∧
    check_file ["backend", "src", "domain", "x.py"]
        (FileOutcome.ok [Stmt.importFrom (some "requestsx") 1]) =
      [⟨["backend", "src", "domain", "x.py"], 1,
        "Domain layer importing framework: requestsx"⟩] := by
  refine ⟨by decide, by decide, ?_⟩
  simp [check_file, visitStmts]
  decide

/-- C1, amended, for both configured rules: a file classified in the
domain layer only is flagged on a from-import of m exactly when m
plainly string-starts with one of the forbidden framework prefixes, and
a file classified in the application layer only is flagged exactly when
the module plainly string-starts with one of the forbidden
infrastructure prefixes — in neither rule is equality or a following
separator required, so merely-string-prefixed targets such as
"requestsx" are flagged too. -/
theorem C1_plain_prefix_matching (fp fp' : PyPath) (m m' : String) (ln ln' : Int)
    (hd : is_domain_layer fp = true) (ha : is_application_layer fp = false)
    (hd' : is_domain_layer fp' = false) (ha' : is_application_layer fp' = true) :
    (check_file fp (FileOutcome.ok [Stmt.importFrom (some m) ln]) ≠ [] ↔
      ∃ p ∈ frameworks, startswith m p = true) ∧
    (check_file fp' (FileOutcome.ok [Stmt.importFrom (some m') ln']) ≠ [] ↔
      ∃ p ∈ infrastructure, startswith m' p = true) := by
  constructor
  · simp [check_file, visitStmts, hd, ha, is_framework_import, List.any_eq_true]
  · simp [check_file, visitStmts, hd', ha', is_infrastructure_import, List.any_eq_true]

/-- C1, witness: the amended theorem applied to a concrete domain-layer
file importing "requestsx" and a concrete application-layer file
importing "redisx", both merely-string-prefixed targets. -/
theorem C1_plain_prefix_matching_witness :
    (check_file ["backend", "src", "domain", "x.py"]
        (FileOutcome.ok [Stmt.importFrom (some "requestsx") 1]) ≠ [] ↔
      ∃ p ∈ frameworks, startswith "requestsx" p = true) ∧
    (check_file ["backend", "src", "application", "y.py"]
        (FileOutcome.ok [Stmt.importFrom (some "redisx") 2]) ≠ [] ↔
      ∃ p ∈ infrastructure, startswith "redisx" p = true) :=
  C1_plain_prefix_matching ["backend", "src", "domain", "x.py"]
    ["backend", "src", "application", "y.py"] "requestsx" "redisx" 1 2
    (by decide) (by decide) (by decide) (by decide)

/-- C2, counterexample: layer classification is not first-match-wins. A
file whose path contains both "domain" and "application" as components
is subject to both layers' rules at once: one import of "sqlalchemy"
(forbidden in both) yields two violations, one from each layer's rule,
refuting the claim that exactly one layer's rules can fire. -/
theorem C2_counterexample :
    check_file ["backend", "src", "domain", "application", "svc.py"]
        (FileOutcome.ok [Stmt.importFrom (some "sqlalchemy") 3]) =
      [⟨["backend", "src", "domain", "application", "svc.py"], 3,
        "Domain layer importing framework: sqlalchemy"⟩,
       ⟨["backend", "src", "domain", "application", "svc.py"], 3,
        "Application layer importing infrastructure: sqlalchemy"⟩] := by
  simp [check_file, visitStmts]
  decide

/-- C2, amended: the two layer-membership checks run independently, so
a file whose path contains both configured segments belongs to both
layers and a single import that both rule sets forbid produces exactly
two violations, one per layer. -/
theorem C2_independent_layer_checks (fp : PyPath) (m : String) (ln : Int)
    (hd : is_domain_layer fp = true) (ha : is_application_layer fp = true)
    (hf : is_framework_import m = true) (hi : is_infrastructure_import m = true) :
    (check_file fp (FileOutcome.ok [Stmt.importFrom (some m) ln])).length = 2 := by
  simp [check_file, visitStmts, hd, ha, hf, hi]

/-- C2, witness: the amended theorem applied to a concrete file under
both a domain and an application path segment importing "sqlalchemy". -/
theorem C2_independent_layer_checks_witness :
    (check_file ["backend", "src", "domain", "application", "svc.py"]
        (FileOutcome.ok [Stmt.importFrom (some "sqlalchemy") 3])).length = 2 :=
  C2_independent_layer_checks ["backend", "src", "domain", "application", "svc.py"]
    "sqlalchemy" 3 (by decide) (by decide) (by decide) (by decide)

/-- Helper: a nonempty list has isEmpty false. -/
theorem isEmpty_false_of_ne_nil {a : Type} {l : List a} (h : l ≠ []) :
    l.isEmpty = false := by
  cases l with
  | nil => exact absurd rfl h
  | cons x t => rfl

/-- Helper: the accumulated violation list is empty exactly when every
scanned file checks clean. -/
theorem all_violations_eq_nil_iff (files : List (PyPath × FileOutcome)) :
    all_violations files = [] ↔ ∀ p ∈ files, check_file p.1 p.2 = [] := by
  unfold all_violations
  exact List.flatMap_eq_nil_iff

/-- Helper: when the src directory exists and some scanned file yields
a nonempty violation list, the run exits 1. -/
theorem runMain_exit_one_of_mem_dirty (m : TreeModel) (hs : m.srcExists = true)
    (p : PyPath × FileOutcome) (hp : p ∈ m.files)
    (hne : check_file p.1 p.2 ≠ []) : (runMain m).exit = 1 := by
  have hf : m.files ≠ [] := by
    intro h
    rw [h] at hp
    exact absurd hp (List.not_mem_nil p)
  have hv : all_violations m.files ≠ [] := by
    intro h
    exact hne ((all_violations_eq_nil_iff m.files).mp h p hp)
  simp only [runMain]
  rw [if_neg (by rw [hs]; decide)]
  rw [if_neg (fun h => hf (List.isEmpty_iff.mp h))]
  rw [if_pos (isEmpty_false_of_ne_nil hv)]

/-- C3: the exit status is 0 exactly when the scanner ran (the src
directory exists) and either found no candidate files or every scanned
file yielded zero violations and zero diagnostics, and is 1 exactly
when the src directory is missing or at least one violation or
diagnostic was recorded for some scanned file. -/
theorem C3_exit_status (m : TreeModel) :
    ((runMain m).exit = 0 ↔
      (m.srcExists = true ∧
        (m.files = [] ∨ ∀ p ∈ m.files, check_file p.1 p.2 = []))) ∧
    ((runMain m).exit = 1 ↔
      (m.srcExists = false ∨ ∃ p ∈ m.files, check_file p.1 p.2 ≠ [])) := by
  by_cases hs : m.srcExists = true
  · by_cases hf : m.files = []
    · have hrun : (runMain m).exit = 0 := by
        simp only [runMain]
        rw [if_neg (by rw [hs]; decide)]
        rw [if_pos (by rw [hf]; rfl)]
      rw [hrun]
      constructor
      · exact ⟨fun _ => ⟨hs, Or.inl hf⟩, fun _ => rfl⟩
      · constructor
        · intro h
          exact absurd h (by decide)
        · rintro (h | ⟨p, hp, _⟩)
          · rw [hs] at h
            exact absurd h (by decide)
          · rw [hf] at hp
            exact absurd hp (List.not_mem_nil p)
    · by_cases hv : all_violations m.files = []
      · have hrun : (runMain m).exit = 0 := by
          simp only [runMain]
          rw [if_neg (by rw [hs]; decide)]
          rw [if_neg (fun h => hf (List.isEmpty_iff.mp h))]
          rw [if_neg (by rw [hv]; decide)]
        rw [hrun]
        constructor
        · exact ⟨fun _ => ⟨hs, Or.inr ((all_violations_eq_nil_iff m.files).mp hv)⟩,
            fun _ => rfl⟩
        · constructor
          · intro h
            exact absurd h (by decide)
          · rintro (h | ⟨p, hp, hne⟩)
            · rw [hs] at h
              exact absurd h (by decide)
            · exact absurd ((all_violations_eq_nil_iff m.files).mp hv p hp) hne
      · have hrun : (runMain m).exit = 1 := by
          simp only [runMain]
          rw [if_neg (by rw [hs]; decide)]
          rw [if_neg (fun h => hf (List.isEmpty_iff.mp h))]
          rw [if_pos (isEmpty_false_of_ne_nil hv)]
        rw [hrun]
        constructor
        · constructor
          · intro h
            exact absurd h (by decide)
          · rintro ⟨_, (h | hall)⟩
            · exact absurd h hf
            · exact absurd ((all_violations_eq_nil_iff m.files).mpr hall) hv
        · constructor
          · intro _
            rcases List.exists_mem_of_ne_nil _ hv with ⟨v, hvmem⟩
            rcases List.mem_flatMap.mp hvmem with ⟨p, hp, hvp⟩
            exact Or.inr ⟨p, hp, List.ne_nil_of_mem hvp⟩
          · exact fun _ => rfl
  · have hs' : m.srcExists = false := by simpa using hs
    have hrun : (runMain m).exit = 1 := by
      simp only [runMain]
      rw [if_pos hs']
    rw [hrun]
    constructor
    · constructor
      · intro h
        exact absurd h (by decide)
      · rintro ⟨h, _⟩
        rw [hs'] at h
        exact absurd h (by decide)
    · exact ⟨fun _ => Or.inl hs', fun _ => rfl⟩

/-- C4: only from-imports with a non-empty module part are examined as
dependency declarations. A plain import statement and a purely relative
from-import contribute nothing, wherever they occur and whatever layer
the file is in, so a file holding only such statements yields zero
violations even when the named module string-starts with a forbidden
prefix. -/
theorem C4_only_from_imports_examined (fp : PyPath) (names : List String)
    (ln ln' : Int) :
    check_file fp (FileOutcome.ok
      [Stmt.importStmt names ln, Stmt.importFrom none ln']) = [] ∧
    (∀ rest : List Stmt,
      visitStmts fp (Stmt.importStmt names ln :: rest) = visitStmts fp rest) ∧
    (∀ rest : List Stmt,
      visitStmts fp (Stmt.importFrom none ln' :: rest) = visitStmts fp rest) := by
  refine ⟨?_, fun rest => ?_, fun rest => ?_⟩
  · simp [check_file, visitStmts]
  · rw [visitStmts]
  · rw [visitStmts]

/-- C5: a file whose text fails to parse produces exactly the one
diagnostic violation carrying the parser's reported line and message
and no rule-violation results (the parse is all-or-nothing, so nothing
partial survives), and a run whose scanned files include such a file
still completes and exits with status 1. -/
theorem C5_syntax_error_diagnostic (fp : PyPath) (ln : Int) (msg : String)
    (m : TreeModel) (hs : m.srcExists = true)
    (hmem : (fp, FileOutcome.syntaxError (some ln) msg) ∈ m.files) :
    check_file fp (FileOutcome.syntaxError (some ln) msg) =
      [⟨fp, ln, "Syntax error: " ++ msg⟩] ∧
    (runMain m).exit = 1 := by
  refine ⟨by simp [check_file], ?_⟩
  have hone : check_file fp (FileOutcome.syntaxError (some ln) msg) ≠ [] := by
    simp [check_file]
  exact runMain_exit_one_of_mem_dirty m hs
    (fp, FileOutcome.syntaxError (some ln) msg) hmem hone

/-- C5, witness: a one-file model whose only file has a syntax error at
line 5. -/
theorem C5_syntax_error_diagnostic_witness :
    check_file ["backend", "src", "a.py"]
        (FileOutcome.syntaxError (some 5) "invalid syntax") =
      [⟨["backend", "src", "a.py"], 5, "Syntax error: invalid syntax"⟩] ∧
    (runMain ⟨[], true,
      [(["backend", "src", "a.py"],
        FileOutcome.syntaxError (some 5) "invalid syntax")]⟩).exit = 1 :=
  C5_syntax_error_diagnostic ["backend", "src", "a.py"] 5 "invalid syntax"
    ⟨[], true, [(["backend", "src", "a.py"],
      FileOutcome.syntaxError (some 5) "invalid syntax")]⟩
    rfl (List.mem_singleton.mpr rfl)

/-- C6: a file that cannot be read contributes exactly one diagnostic
violation, and the files enumerated before and after it are still
checked and reported unchanged — the run is not aborted by the bad
file. -/
theorem C6_read_error_isolated (fp : PyPath) (msg : String)
    (pre post : List (PyPath × FileOutcome)) :
    all_violations (pre ++ (fp, FileOutcome.readError msg) :: post) =
      all_violations pre ++ [⟨fp, 0, "Error checking file: " ++ msg⟩] ++
        all_violations post := by
  simp [all_violations, check_file]

/-- C7: a file whose path contains neither "domain" nor "application"
as a path component is exempt from every layer-scoped rule — checking
it executes cleanly and yields zero violations whatever it imports,
wherever in the file the imports occur. -/
theorem C7_unclassified_exempt (fp : PyPath)
    (h1 : "domain" ∉ fp) (h2 : "application" ∉ fp) :
    ∀ tree : List Stmt, check_file fp (FileOutcome.ok tree) = [] := by
  have hd : is_domain_layer fp = false := by simpa [is_domain_layer] using h1
  have ha : is_application_layer fp = false := by simpa [is_application_layer] using h2
  intro tree
  show visitStmts fp tree = []
  induction tree using visitStmts.induct fp with
  | case1 => simp [visitStmts]
  | case2 names ln rest ih =>
      rw [visitStmts]
      exact ih
  | case3 ln rest ih =>
      rw [visitStmts]
      exact ih
  | case4 m ln rest ih =>
      rw [visitStmts]
      simp [hd, ha, ih]
  | case5 ln body rest ih1 ih2 =>
      rw [visitStmts]
      simp [ih1, ih2]

/-- C7, witness: the theorem applied to a concrete adapters-layer file
importing two forbidden modules, one of them inside a nested body. -/
theorem C7_unclassified_exempt_witness :
    check_file ["backend", "src", "adapters", "persistence", "repo.py"]
      (FileOutcome.ok [Stmt.importFrom (some "fastapi") 1,
        Stmt.compound 2 [Stmt.importFrom (some "sqlalchemy") 3]]) = [] :=
  C7_unclassified_exempt ["backend", "src", "adapters", "persistence", "repo.py"]
    (by decide) (by decide)
    [Stmt.importFrom (some "fastapi") 1,
      Stmt.compound 2 [Stmt.importFrom (some "sqlalchemy") 3]]

/-- C8, counterexample: the rendered report is not a function of the
tree contents alone. The same two candidate files, enumerated by the
filesystem in the two possible orders, produce different output bytes
(their violation lines swap), because the source applies no sorting to
the rglob enumeration. -/
theorem C8_counterexample :
    (runMain ⟨[], true,
      [(["backend", "src", "domain", "a.py"],
         FileOutcome.ok [Stmt.importFrom (some "fastapi") 1]),
       (["backend", "src", "domain", "b.py"],
         FileOutcome.ok [Stmt.importFrom (some "pydantic") 2])]⟩).out ≠
    (runMain ⟨[], true,
      [(["backend", "src", "domain", "b.py"],
         FileOutcome.ok [Stmt.importFrom (some "pydantic") 2]),
       (["backend", "src", "domain", "a.py"],
         FileOutcome.ok [Stmt.importFrom (some "fastapi") 1])]⟩).out := by
  simp [runMain, all_violations, check_file, visitStmts, violationStr, pathStr]
  decide

/-- C8, amended: the report is a deterministic function of the
enumerated candidate list, and the exit status is additionally
independent of the enumeration order — but the output bytes are not,
since the scanner does not sort, so byte-identical reruns are only
guaranteed when the filesystem enumerates identically. -/
theorem C8_exit_enumeration_invariant (root : PyPath) (e : Bool)
    (l₁ l₂ : List (PyPath × FileOutcome)) (h : l₁.Perm l₂) :
    (runMain ⟨root, e, l₁⟩).exit = (runMain ⟨root, e, l₂⟩).exit := by
  have hperm : (all_violations l₁).Perm (all_violations l₂) := h.flatMap_right _
  by_cases hs : e = false
  · subst hs
    simp [runMain]
  · have he : e = true := by simpa using hs
    subst he
    by_cases hf : l₁ = []
    · have hf2 : l₂ = [] := by
        rw [hf] at h
        exact h.symm.eq_nil
      subst hf
      subst hf2
      simp [runMain]
    · have hf2 : l₂ ≠ [] := by
        intro h2
        rw [h2] at h
        exact hf h.eq_nil
      by_cases hv : all_violations l₁ = []
      · have hv2 : all_violations l₂ = [] := by
          rw [hv] at hperm
          exact hperm.symm.eq_nil
        simp [runMain, isEmpty_false_of_ne_nil hf, isEmpty_false_of_ne_nil hf2,
          hv, hv2]
      · have hv2 : all_violations l₂ ≠ [] := by
          intro h2
          rw [h2] at hperm
          exact hv hperm.eq_nil
        simp [runMain, isEmpty_false_of_ne_nil hf, isEmpty_false_of_ne_nil hf2,
          isEmpty_false_of_ne_nil hv, isEmpty_false_of_ne_nil hv2]

/-- C8, witness: the amended theorem applied to the two enumeration
orders of a concrete two-file tree. -/
theorem C8_exit_enumeration_invariant_witness :
    (runMain ⟨[], true,
      [(["backend", "src", "domain", "a.py"],
         FileOutcome.ok [Stmt.importFrom (some "fastapi") 1]),
       (["backend", "src", "domain", "b.py"],
         FileOutcome.ok [Stmt.importFrom (some "pydantic") 2])]⟩).exit =
    (runMain ⟨[], true,
      [(["backend", "src", "domain", "b.py"],
         FileOutcome.ok [Stmt.importFrom (some "pydantic") 2]),
       (["backend", "src", "domain", "a.py"],
         FileOutcome.ok [Stmt.importFrom (some "fastapi") 1])]⟩).exit :=
  C8_exit_enumeration_invariant [] true _ _ (List.Perm.swap _ _ _)

/-- C9: permuting the order in which a fixed set of files is processed
permutes the accumulated violation list accordingly, so the multiset of
violations is unchanged — each file's violations depend only on that
file's own path and content. -/
theorem C9_violation_set_order_invariant (l₁ l₂ : List (PyPath × FileOutcome))
    (h : l₁.Perm l₂) : (all_violations l₁).Perm (all_violations l₂) := by
  unfold all_violations
  exact h.flatMap_right _

/-- C9, witness: the theorem applied to the two orders of a concrete
pair of files, one with a rule violation and one with a read error. -/
theorem C9_violation_set_order_invariant_witness :
    (all_violations
      [(["backend", "src", "domain", "c.py"],
         FileOutcome.ok [Stmt.importFrom (some "requests") 4]),
       (["backend", "src", "d.py"], FileOutcome.readError "denied")]).Perm
    (all_violations
      [(["backend", "src", "d.py"], FileOutcome.readError "denied"),
       (["backend", "src", "domain", "c.py"],
         FileOutcome.ok [Stmt.importFrom (some "requests") 4])]) :=
  C9_violation_set_order_invariant _ _ (List.Perm.swap _ _ _)

/-- C10: every violation ever produced — rule violation, parse
diagnostic or read diagnostic — references the path of a file that was
actually scanned and carries a non-negative line number, given that the
parser reports 1-based line numbers. -/
theorem C10_violations_wellformed (files : List (PyPath × FileOutcome))
    (hwf : ∀ p ∈ files, outcomeLinesOk p.2 = true) :
    ∀ v ∈ all_violations files,
      (∃ p ∈ files, v.file_path = p.1) ∧ 0 ≤ v.line := by
  intro v hv
  unfold all_violations at hv
  rcases List.mem_flatMap.mp hv with ⟨p, hp, hvp⟩
  rcases check_file_mem p.1 p.2 v hvp with ⟨h1, h2⟩
  exact ⟨⟨p, hp, h1⟩, h2 (hwf p hp)⟩

/-- C10, witness: the theorem applied to a concrete scan with one rule
violation and one parse diagnostic, specialized to the rule violation
the scan produces. -/
theorem C10_violations_wellformed_witness :
    (∃ p ∈ [(["backend", "src", "domain", "e.py"],
         FileOutcome.ok [Stmt.importFrom (some "sqlalchemy") 7]),
       (["backend", "src", "f.py"], FileOutcome.syntaxError (some 2) "bad token")],
        (⟨["backend", "src", "domain", "e.py"], 7,
          "Domain layer importing framework: sqlalchemy"⟩ :
            BoundaryViolation).file_path = p.1) ∧
    0 ≤ (⟨["backend", "src", "domain", "e.py"], 7,
          "Domain layer importing framework: sqlalchemy"⟩ :
            BoundaryViolation).line :=
  C10_violations_wellformed
    [(["backend", "src", "domain", "e.py"],
       FileOutcome.ok [Stmt.importFrom (some "sqlalchemy") 7]),
     (["backend", "src", "f.py"], FileOutcome.syntaxError (some 2) "bad token")]
    (by
      intro p hp
      rcases List.mem_cons.mp hp with h | h
      · rw [h]
        simp [outcomeLinesOk, stmtsLinesOk]
      · rcases List.mem_cons.mp h with h' | h'
        · rw [h']
          simp [outcomeLinesOk]
        · exact absurd h' (List.not_mem_nil p))
    ⟨["backend", "src", "domain", "e.py"], 7,
      "Domain layer importing framework: sqlalchemy"⟩
    (by
      simp [all_violations, check_file, visitStmts]
      decide)

end CheckBoundaries
